import Mathlib

/-!
Verification of the serialtcp connection-bridging subsystem
(src/cmd/serve.go) via a shallow embedding.

Go error values are modelled as lists of base errors: the empty list is
the nil error, and the variadic errors.Join of the standard library
(which drops nil arguments and returns nil when all arguments are nil)
becomes list append.  Traces of externally visible actions (opening the
serial port, listening, closing resources, starting and finishing copy
directions) are modelled as lists of events, produced by executable
functions translated statement by statement from the Go source.
-/

namespace SerialTCP

/-- Base (non-joined) Go error values.  A tag stands for an opaque error
produced by a collaborator (the serial library, the network stack); the
wrap constructor models fmt.Errorf with a w verb, as used by
handleConnection for a SetNoDelay failure. -/
inductive GErr where
  | tag (s : String)
  | noDelayWrap (cause : GErr)
deriving DecidableEq, Repr

/-- A Go error value: the empty list is nil, a non-empty list is the
(multi-)error carrying each base cause, as built by errors.Join. -/
abbrev GoError := List GErr

/-- The errors.Join of two already-flattened error values: nil arguments
disappear and all causes are kept, which for the list model is append. -/
def errorsJoin (a b : GoError) : GoError := a ++ b

/-- Coerce a single (possibly nil) Go error into the list model. -/
def optErr : Option GErr → GoError
  | none => []
  | some e => [e]

/-- The serial.Parity values of the go-serial library (NoParity = 0 .. SpaceParity = 4). -/
inductive Parity where
  | noParity
  | oddParity
  | evenParity
  | markParity
  | spaceParity
deriving DecidableEq, Repr

/-- The serial.StopBits values of the go-serial library
(OneStopBit = 0, OnePointFiveStopBits = 1, TwoStopBits = 2). -/
inductive StopBits where
  | oneStopBit
  | onePointFiveStopBits
  | twoStopBits
deriving DecidableEq, Repr

/-- Effect of unicode.ToLower (as applied rune-wise by strings.ToLower)
on one character.  It agrees with unicode.ToLower on every code point
whose Unicode simple lower-case mapping is an ASCII character: the ASCII
capitals 65..90 shift by 32, the Kelvin sign U+212A lowers to k and the
dotted capital I U+0130 lowers to i — these are the only code points
Unicode maps into the ASCII range.  Every other code point is kept
unchanged here; unicode.ToLower would map it to another non-ASCII code
point, and either way it compares unequal to every character of the
all-ASCII parity and stop-bit tokens, so no comparison performed by the
Set methods can tell the difference. -/
def toLowerChar (ch : Char) : Char :=
  if 65 ≤ ch.toNat ∧ ch.toNat ≤ 90 then Char.ofNat (ch.toNat + 32)
  else if ch.toNat = 0x212A then Char.ofNat 107
  else if ch.toNat = 0x130 then Char.ofNat 105
  else ch

/-- Model of strings.ToLower of the Go standard library, as the
character-wise map over the string; see the toLowerChar comment for the
exact agreement with the Unicode lower-case tables. -/
def strToLower (s : String) : String := String.mk (s.data.map toLowerChar)

/-- The ParityValue.Set method of src/cmd/serve.go: a Go switch on
strings.ToLower(s), translated as the equivalent sequential comparison
chain; the default case returns fmt.Errorf("invalid parity value: %s", s). -/
def ParityValue.Set (s : String) : Except String Parity :=
  if strToLower s = "no" then .ok .noParity
  else if strToLower s = "odd" then .ok .oddParity
  else if strToLower s = "even" then .ok .evenParity
  else if strToLower s = "mark" then .ok .markParity
  else if strToLower s = "space" then .ok .spaceParity
  else .error ("invalid parity value: " ++ s)

/-- The StopBitsValue.Set method of src/cmd/serve.go: a Go switch on
strings.ToLower(str); the default case returns
fmt.Errorf("invalid stop bits value: %s", str). -/
def StopBitsValue.Set (str : String) : Except String StopBits :=
  if strToLower str = "1" then .ok .oneStopBit
  else if strToLower str = "1.5" then .ok .onePointFiveStopBits
  else if strToLower str = "2" then .ok .twoStopBits
  else .error ("invalid stop bits value: " ++ str)

/-- The serial.ModemOutputBits value: the initial RTS/DTR line state. -/
structure ModemOutputBits where
  rts : Bool
  dtr : Bool
deriving DecidableEq, Repr

/-- The serial.Mode value handed to serial.Open. -/
structure Mode where
  baudRate : Int
  dataBits : Int
  parity : Parity
  stopBits : StopBits
  initialStatusBits : ModemOutputBits
deriving DecidableEq, Repr

/-- The flag-backed configuration consumed by ServeCmd (portName and
address are strings irrelevant to the mode value and omitted). -/
structure Flags where
  baudRate : Int
  dataBits : Int
  parity : Parity
  stopBits : StopBits
  disableRts : Bool
  disableDtr : Bool
deriving DecidableEq, Repr

/-- The mode literal built at the top of the ServeCmd run function
(src/cmd/serve.go lines 425..434): every field is copied verbatim from
the flag variables, RTS and DTR are the negations of the disable flags.
No check of any kind is performed here. -/
def buildMode (f : Flags) : Mode :=
  { baudRate := f.baudRate
    dataBits := f.dataBits
    parity := f.parity
    stopBits := f.stopBits
    initialStatusBits := { rts := !f.disableRts, dtr := !f.disableDtr } }

/-- One copy direction inside handleConnection. -/
inductive Dir where
  | serialToConn
  | connToSerial
deriving DecidableEq, Repr

/-- Externally visible actions of ServeCmd and handleConnection. -/
inductive Event where
  | openSerial (m : Mode)
  | listenTCP
  | serialClosed
  | listenerClosed
  | acceptErrorLogged
  | accepted (c : Nat)
  | setNoDelay (c : Nat)
  | copyStart (c : Nat) (d : Dir)
  | copyDone (c : Nat) (d : Dir)
  | connClosed (c : Nat)
  | copierDone (c : Nat)
  | connErrorLogged (c : Nat)
deriving DecidableEq, Repr

/-- The outcomes the environment chooses for one run of handleConnection:
whether the connection is a TCP connection, what SetNoDelay returns when
called, what each io.Copy direction returns when it finishes (nil on
EOF), what conn.Close returns, and which direction finishes first (the
order in which the two sends on errCh are received). -/
structure ConnEnv where
  isTCP : Bool
  noDelayRes : Option GErr
  serialToConnRes : Option GErr
  connToSerialRes : Option GErr
  closeRes : Option GErr
  serialToConnFirst : Bool
deriving DecidableEq, Repr

/-- The copy phase of handleConnection (src/cmd/serve.go lines 381..401):
both goroutines are started in program order, each sends its io.Copy
error on errCh when it finishes; the function receives both results (in
the order the directions finished), joins them, closes the connection
and joins the close error. -/
def copyPhase (c : Nat) (env : ConnEnv) : List Event × GoError :=
  let firstDir := if env.serialToConnFirst then Dir.serialToConn else Dir.connToSerial
  let secondDir := if env.serialToConnFirst then Dir.connToSerial else Dir.serialToConn
  let firstRes := if env.serialToConnFirst then env.serialToConnRes else env.connToSerialRes
  let secondRes := if env.serialToConnFirst then env.connToSerialRes else env.serialToConnRes
  ([Event.copyStart c Dir.serialToConn, Event.copyStart c Dir.connToSerial,
    Event.copyDone c firstDir, Event.copyDone c secondDir, Event.connClosed c],
   errorsJoin (errorsJoin (optErr firstRes) (optErr secondRes)) (optErr env.closeRes))

/-- The handleConnection function of src/cmd/serve.go (lines 371..402) for the
connection with identity c: when the connection is a TCP connection,
SetNoDelay is attempted first and a failure returns the wrapped error at
once (before any goroutine is started and without closing anything);
otherwise the copy phase runs. -/
def handleConnection (c : Nat) (env : ConnEnv) : List Event × GoError :=
  if env.isTCP then
    match env.noDelayRes with
    | some e => ([Event.setNoDelay c], [GErr.noDelayWrap e])
    | none =>
      (Event.setNoDelay c :: (copyPhase c env).1, (copyPhase c env).2)
  else copyPhase c env

/-- The environment of one ServeCmd startup: the flag values and what
serial.Open and net.Listen return. -/
structure ServeEnv where
  flags : Flags
  openRes : Option GErr
  listenRes : Option GErr
deriving DecidableEq, Repr

/-- The startup part of the ServeCmd run function (src/cmd/serve.go
lines 425..450): build the mode, open the serial port (returning the
error at once on failure, before net.Listen is ever reached), register
the deferred port.Close, listen (on failure the deferred close runs and
the listen error is returned), register the deferred listener.Close and
proceed to the accept loop (result none). -/
def serveStartup (env : ServeEnv) : List Event × Option GErr :=
  let m := buildMode env.flags
  match env.openRes with
  | some e => ([Event.openSerial m], some e)
  | none =>
    match env.listenRes with
    | some e => ([Event.openSerial m, Event.listenTCP, Event.serialClosed], some e)
    | none => ([Event.openSerial m, Event.listenTCP], none)

/-- One accepted connection as seen by the accept loop: its identity and
the environment its copier will run in. -/
structure AConn where
  id : Nat
  env : ConnEnv
deriving DecidableEq, Repr

/-- The accept loop of ServeCmd (src/cmd/serve.go lines 452..469),
run on a finite prefix of accept outcomes (the Go loop is infinite; a
list element is one return of listener.Accept).  On an accept error the
loop logs and continues.  On success it logs the accepted connection and
calls handleConnection directly in the loop body: the full copier trace,
the return of the call (copierDone) and the error log when the copier
failed all happen before the next accept. -/
def acceptLoop : List (Except GErr AConn) → List Event
  | [] => []
  | .error _ :: rest => Event.acceptErrorLogged :: acceptLoop rest
  | .ok a :: rest =>
    let r := handleConnection a.id a.env
    Event.accepted a.id ::
      (r.1 ++ [Event.copierDone a.id] ++
        (if r.2 = [] then [] else [Event.connErrorLogged a.id])) ++
      acceptLoop rest

/-- One run of the io.Copy loop of the Go standard library, as invoked
by handleConnection: repeatedly read up to bufSize bytes from the source
stream and write the chunk read to the destination, until the source is
exhausted.  The fuel argument equals the source length, which bounds the
number of iterations whenever bufSize is positive.  The result is the
list of chunks written to the destination, in write order. -/
def ioCopyChunks (bufSize : Nat) : Nat → List Nat → List (List Nat)
  | 0, _ => []
  | _, [] => []
  | fuel + 1, b :: src =>
    (b :: src).take bufSize :: ioCopyChunks bufSize fuel ((b :: src).drop bufSize)

/-- Model of io.Copy with the default 32 KiB buffer of the Go standard library,
as used by both directions of handleConnection: the byte sequence the
destination receives, as the concatenation of the written chunks. -/
def ioCopy (src : List Nat) : List Nat :=
  (ioCopyChunks 32768 src.length src).flatten

/-- The bytes the serial stream receives from the copier when the TCP
side of the connection sends the byte sequence tcpBytes: the go routine
at src/cmd/serve.go line 390 runs io.Copy(port, conn). -/
def connToSerialDelivered (tcpBytes : List Nat) : List Nat := ioCopy tcpBytes

/-- The bytes the connection socket receives from the copier when the
serial side yields the byte sequence serialBytes: the go routine at
src/cmd/serve.go line 385 runs io.Copy(conn, port). -/
def serialToConnDelivered (serialBytes : List Nat) : List Nat := ioCopy serialBytes

/-- The flag values the repository declares as defaults (baud rate
115200, data bits 8, parity NoParity, stop bits OneStopBit, RTS and DTR
asserted), used to instantiate the startup model at concrete inputs. -/
def defaultFlags : Flags :=
  { baudRate := 115200
    dataBits := 8
    parity := Parity.noParity
    stopBits := StopBits.oneStopBit
    disableRts := false
    disableDtr := false }

/-- A copier environment in which everything succeeds: a TCP connection,
SetNoDelay ok, both copy directions end with a nil error (EOF), the
close succeeds, serial-to-connection finishes first. -/
def allOkEnv : ConnEnv :=
  { isTCP := true
    noDelayRes := none
    serialToConnRes := none
    connToSerialRes := none
    closeRes := none
    serialToConnFirst := true }

/-- A startup environment where serial.Open fails. -/
def openFailEnv : ServeEnv :=
  { flags := defaultFlags, openRes := some (GErr.tag "open failed"), listenRes := none }

/-- A startup environment where serial.Open succeeds and net.Listen fails. -/
def listenFailEnv : ServeEnv :=
  { flags := defaultFlags, openRes := none, listenRes := some (GErr.tag "listen failed") }

/-- A copier environment where SetNoDelay fails on a TCP connection. -/
def noDelayFailEnv : ConnEnv :=
  { allOkEnv with noDelayRes := some (GErr.tag "nodelay") }

/-- A copier environment where the serial-to-connection copy and the
connection close both fail, and connection-to-serial finishes first. -/
def copyFailEnv : ConnEnv :=
  { allOkEnv with
    serialToConnRes := some (GErr.tag "read failed")
    closeRes := some (GErr.tag "close failed")
    serialToConnFirst := false }

/-- An accept-outcome list with two successfully accepted connections,
identities 1 and 2, each copier running in the all-success
environment. -/
def twoConnInput : List (Except GErr AConn) :=
  [Except.ok { id := 1, env := allOkEnv }, Except.ok { id := 2, env := allOkEnv }]

/-- The flag configuration carrying an out-of-range baud rate (-1) and
an unsupported data-bit count (9). -/
def invalidFlags : Flags :=
  { defaultFlags with baudRate := -1, dataBits := 9 }

theorem ioCopyChunks_flatten (bufSize : Nat) (hb : 0 < bufSize) :
    ∀ (fuel : Nat) (src : List Nat), src.length ≤ fuel →
      (ioCopyChunks bufSize fuel src).flatten = src := by
  intro fuel
  induction fuel with
  | zero =>
    intro src hle
    have : src = [] := List.eq_nil_of_length_eq_zero (Nat.le_zero.mp hle)
    simp [this, ioCopyChunks]
  | succ n ih =>
    intro src hle
    match src with
    | [] => simp [ioCopyChunks]
    | b :: rest =>
      have hdrop : ((b :: rest).drop bufSize).length ≤ n := by
        simp only [List.length_drop, List.length_cons]
        simp only [List.length_cons] at hle
        omega
      simp only [ioCopyChunks, List.flatten_cons, ih _ hdrop, List.take_append_drop]

theorem ioCopy_eq (src : List Nat) : ioCopy src = src := by
  unfold ioCopy
  exact ioCopyChunks_flatten 32768 (by omega) src.length src (Nat.le_refl _)

theorem handleConnection_not_serialClosed (c : Nat) (env : ConnEnv) :
    Event.serialClosed ∉ (handleConnection c env).1 := by
  rcases env with ⟨tcp, nd, sc, cs, cl, fst⟩
  cases tcp <;> cases nd <;> cases fst <;>
    simp [handleConnection, copyPhase]

theorem handleConnection_not_listenerClosed (c : Nat) (env : ConnEnv) :
    Event.listenerClosed ∉ (handleConnection c env).1 := by
  rcases env with ⟨tcp, nd, sc, cs, cl, fst⟩
  cases tcp <;> cases nd <;> cases fst <;>
    simp [handleConnection, copyPhase]

/-- Claim C1: for every run of the Connection Copier on a connection
whose TCP side sends the byte sequence B and whose serial side yields
the byte sequence S, the serial stream receives exactly B and the
connection socket receives exactly S, each in its original order, with
no bytes added, dropped or reordered (list equality). -/
theorem C1_copier_delivers_exact_bytes (B S : List Nat) :
    connToSerialDelivered B = B ∧ serialToConnDelivered S = S :=
  ⟨ioCopy_eq B, ioCopy_eq S⟩

/-- Claim C5: when opening the serial port fails, ServeCmd returns that
open error and net.Listen is never reached (no listener event in the
trace), nor is any close performed. -/
theorem C5_open_failure_no_listener (env : ServeEnv) (e : GErr)
    (h : env.openRes = some e) :
    (serveStartup env).2 = some e ∧
    Event.listenTCP ∉ (serveStartup env).1 ∧
    Event.serialClosed ∉ (serveStartup env).1 := by
  simp [serveStartup, h]

theorem C5_open_failure_no_listener_witness :
    (serveStartup openFailEnv).2 = some (GErr.tag "open failed") ∧
    Event.listenTCP ∉ (serveStartup openFailEnv).1 ∧
    Event.serialClosed ∉ (serveStartup openFailEnv).1 :=
  C5_open_failure_no_listener openFailEnv (GErr.tag "open failed") rfl

/-- Claim C6: when the serial port opens but net.Listen fails, the
deferred port.Close runs exactly once before ServeCmd returns, and the
returned error is the listen error. -/
theorem C6_listen_failure_closes_serial (env : ServeEnv) (e : GErr)
    (ho : env.openRes = none) (hl : env.listenRes = some e) :
    (serveStartup env).1.count Event.serialClosed = 1 ∧
    (serveStartup env).2 = some e := by
  simp [serveStartup, ho, hl, List.count_cons]

theorem C6_listen_failure_closes_serial_witness :
    (serveStartup listenFailEnv).1.count Event.serialClosed = 1 ∧
    (serveStartup listenFailEnv).2 = some (GErr.tag "listen failed") :=
  C6_listen_failure_closes_serial listenFailEnv (GErr.tag "listen failed") rfl rfl

/-- Claim C8: on every execution path of handleConnection, the shared
serial port is never closed: no serial-close event ever appears in the
copier trace (while the connection-close event does appear on the normal
path, so the trace does record closes). -/
theorem C8_copier_never_closes_serial (c : Nat) (env : ConnEnv) :
    Event.serialClosed ∉ (handleConnection c env).1 :=
  handleConnection_not_serialClosed c env

/-- Claim C10: when the connection is a TCP connection and SetNoDelay
fails, handleConnection returns the wrapped error immediately: neither
copy direction is started and the connection is not closed on that
path. -/
theorem C10_nodelay_failure_returns_early (c : Nat) (env : ConnEnv) (e : GErr)
    (ht : env.isTCP = true) (hn : env.noDelayRes = some e) :
    (handleConnection c env).2 = [GErr.noDelayWrap e] ∧
    (∀ d : Dir, Event.copyStart c d ∉ (handleConnection c env).1) ∧
    Event.connClosed c ∉ (handleConnection c env).1 := by
  simp [handleConnection, ht, hn]

theorem C10_nodelay_failure_returns_early_witness :
    (handleConnection 3 noDelayFailEnv).2 = [GErr.noDelayWrap (GErr.tag "nodelay")] ∧
    (∀ d : Dir, Event.copyStart 3 d ∉ (handleConnection 3 noDelayFailEnv).1) ∧
    Event.connClosed 3 ∉ (handleConnection 3 noDelayFailEnv).1 :=
  C10_nodelay_failure_returns_early 3 noDelayFailEnv (GErr.tag "nodelay") rfl rfl

theorem optErr_eq_nil (x : Option GErr) : optErr x = [] ↔ x = none := by
  cases x <;> simp [optErr]

/-- Claim C7 (amended): on every run of handleConnection in which the
SetNoDelay step does not fail, the copier returns only after both copy
directions have terminated (the connection-close event comes after both
copy-done events and is the last event), closes the connection exactly
once, and its result is the join of the two direction errors and the
close error: it is nil exactly when all three are nil and it keeps every
underlying cause (up to the order in which the directions finished). -/
theorem C7_waits_both_closes_once_joins_errors (c : Nat) (env : ConnEnv)
    (h : env.isTCP = true → env.noDelayRes = none) :
    (∃ pre, (handleConnection c env).1 = pre ++ [Event.connClosed c] ∧
      Event.copyDone c Dir.serialToConn ∈ pre ∧
      Event.copyDone c Dir.connToSerial ∈ pre ∧
      Event.connClosed c ∉ pre) ∧
    List.Perm (handleConnection c env).2
      (optErr env.serialToConnRes ++ optErr env.connToSerialRes ++ optErr env.closeRes) ∧
    ((handleConnection c env).2 = [] ↔
      env.serialToConnRes = none ∧ env.connToSerialRes = none ∧
        env.closeRes = none) := by
  obtain ⟨tcp, nd, sc, cs, cl, fst⟩ := env
  have hnd : tcp = true → nd = none := h
  have htrace : (handleConnection c ⟨tcp, nd, sc, cs, cl, fst⟩).1 =
      (if tcp then [Event.setNoDelay c] else []) ++ (copyPhase c ⟨tcp, nd, sc, cs, cl, fst⟩).1 := by
    cases tcp with
    | false => simp [handleConnection]
    | true => simp [handleConnection, hnd rfl]
  have hres : (handleConnection c ⟨tcp, nd, sc, cs, cl, fst⟩).2 =
      (copyPhase c ⟨tcp, nd, sc, cs, cl, fst⟩).2 := by
    cases tcp with
    | false => simp [handleConnection]
    | true => simp [handleConnection, hnd rfl]
  refine ⟨?_, ?_, ?_⟩
  · refine ⟨(if tcp then [Event.setNoDelay c] else []) ++
      [Event.copyStart c Dir.serialToConn, Event.copyStart c Dir.connToSerial] ++
      (if fst then [Event.copyDone c Dir.serialToConn, Event.copyDone c Dir.connToSerial]
        else [Event.copyDone c Dir.connToSerial, Event.copyDone c Dir.serialToConn]),
      ?_, ?_, ?_, ?_⟩
    · rw [htrace]
      cases fst <;> simp [copyPhase]
    · cases tcp <;> cases fst <;> simp
    · cases tcp <;> cases fst <;> simp
    · cases tcp <;> cases fst <;> simp
  · rw [hres]
    cases fst with
    | true => simp [copyPhase, errorsJoin, List.append_assoc]
    | false =>
      simpa [copyPhase, errorsJoin, List.append_assoc] using
        List.Perm.append_right (optErr cl)
          (@List.perm_append_comm GErr (optErr cs) (optErr sc))
  · rw [hres]
    cases fst with
    | true =>
      simp [copyPhase, errorsJoin, optErr_eq_nil, and_assoc]
    | false =>
      simp only [copyPhase, errorsJoin, if_false, Bool.false_eq_true, ite_false,
        List.append_eq_nil, optErr_eq_nil]
      constructor
      · rintro ⟨⟨h1, h2⟩, h3⟩
        exact ⟨h2, h1, h3⟩
      · rintro ⟨h1, h2, h3⟩
        exact ⟨⟨h2, h1⟩, h3⟩

theorem C7_waits_both_closes_once_joins_errors_witness :
    (∃ pre, (handleConnection 7 copyFailEnv).1 = pre ++ [Event.connClosed 7] ∧
      Event.copyDone 7 Dir.serialToConn ∈ pre ∧
      Event.copyDone 7 Dir.connToSerial ∈ pre ∧
      Event.connClosed 7 ∉ pre) ∧
    List.Perm (handleConnection 7 copyFailEnv).2
      (optErr copyFailEnv.serialToConnRes ++ optErr copyFailEnv.connToSerialRes ++
        optErr copyFailEnv.closeRes) ∧
    ((handleConnection 7 copyFailEnv).2 = [] ↔
      copyFailEnv.serialToConnRes = none ∧ copyFailEnv.connToSerialRes = none ∧
        copyFailEnv.closeRes = none) :=
  C7_waits_both_closes_once_joins_errors 7 copyFailEnv (fun _ => rfl)

/-- Claim C7 counterexample: on the run where SetNoDelay fails on a TCP
connection, handleConnection never closes the connection (the claimed
exactly-once close does not happen: the close count is zero, and neither
direction ever terminates because neither is started), and its result is
the lone wrapped SetNoDelay error, not an aggregate of the two direction
errors and a close error.  The claim as frozen quantifies over every run
of the copier, so this run refutes it. -/
theorem C7_counterexample :
    (handleConnection 9 noDelayFailEnv).1.count (Event.connClosed 9) = 0 ∧
    (handleConnection 9 noDelayFailEnv).1.count (Event.copyDone 9 Dir.serialToConn) = 0 ∧
    (handleConnection 9 noDelayFailEnv).1.count (Event.copyDone 9 Dir.connToSerial) = 0 ∧
    (handleConnection 9 noDelayFailEnv).2 = [GErr.noDelayWrap (GErr.tag "nodelay")] := by
  decide

/-- Claim C2 counterexample: with two successfully accepted connections
the loop finishes the first copier (its call returns) strictly before it
accepts the second connection, so it does wait for the copier, contrary
to the claim. -/
theorem C2_counterexample :
    Event.copierDone 1 ∈ acceptLoop twoConnInput ∧
    Event.accepted 2 ∈ acceptLoop twoConnInput ∧
    (acceptLoop twoConnInput).indexOf (Event.copierDone 1) <
      (acceptLoop twoConnInput).indexOf (Event.accepted 2) := by
  decide

/-- Claim C2 (amended): for every successfully accepted connection, the
Accept Loop runs that Connection Copier to completion inside the loop
body before accepting the next connection: the loop trace distributes
over input concatenation, and the trace of one accepted connection is a
complete block (accepted, the full copier trace, the return of the call,
the error log when it failed), so copiers for different connections are
never active at the same time. -/
theorem C2_amended_loop_is_sequential :
    (∀ xs ys : List (Except GErr AConn),
      acceptLoop (xs ++ ys) = acceptLoop xs ++ acceptLoop ys) ∧
    (∀ a : AConn, acceptLoop [Except.ok a] =
      Event.accepted a.id ::
        ((handleConnection a.id a.env).1 ++ [Event.copierDone a.id] ++
          (if (handleConnection a.id a.env).2 = [] then []
            else [Event.connErrorLogged a.id]))) := by
  constructor
  · intro xs ys
    induction xs with
    | nil => simp [acceptLoop]
    | cons x rest ih =>
      cases x with
      | error e => simp [acceptLoop, ih]
      | ok a => simp [acceptLoop, ih]
  · intro a
    simp [acceptLoop]

/-- Claim C3 counterexample: with baud rate -1 (out of range) and data
bits 9 (unsupported), no configuration error is raised anywhere: the
mode handed to serial.Open carries those very values, so the invalid
configuration does reach the open call. -/
theorem C3_counterexample :
    (buildMode invalidFlags).baudRate = -1 ∧
    (buildMode invalidFlags).dataBits = 9 ∧
    Event.openSerial (buildMode invalidFlags) ∈
      (serveStartup { flags := invalidFlags, openRes := none, listenRes := none }).1 := by
  decide

/-- Claim C3 (amended): the program performs no validation of baud rate
or data bits: whatever values the configuration supplies are copied
verbatim into the mode passed to serial.Open, for every startup
environment; rejection of such values, if any, happens inside the
external open call, not before it. -/
theorem C3_amended_unvalidated_passthrough (f : Flags) (openRes listenRes : Option GErr) :
    (buildMode f).baudRate = f.baudRate ∧
    (buildMode f).dataBits = f.dataBits ∧
    Event.openSerial (buildMode f) ∈
      (serveStartup { flags := f, openRes := openRes, listenRes := listenRes }).1 := by
  refine ⟨rfl, rfl, ?_⟩
  cases openRes <;> cases listenRes <;> simp [serveStartup]

/-- Claim C4 counterexample: the token for no parity is the literal
string no, not none: ParityValue.Set rejects none with the invalid
parity error, so the claimed token set is wrong. -/
theorem C4_counterexample :
    ParityValue.Set "none" = Except.error "invalid parity value: none" := by
  rfl

/-- Claim C4 (amended): the parity Set operation succeeds exactly on the
tokens that strings.ToLower maps to one of no, odd, even, mark, space
(which besides case variants also admits the Kelvin sign U+212A standing
for k, as in mar followed by U+212A), and the stop-bits Set operation
exactly on the tokens lowered to 1, 1.5, 2, each mapped to the
corresponding serial value; every other token (for example parity xyz or
stop bits 3) yields the configuration error of the respective flag. -/
theorem C4_amended_tokens (s : String) :
    ((∃ p, ParityValue.Set s = Except.ok p) ↔
      strToLower s ∈ (["no", "odd", "even", "mark", "space"] : List String)) ∧
    ((∃ b, StopBitsValue.Set s = Except.ok b) ↔
      strToLower s ∈ (["1", "1.5", "2"] : List String)) ∧
    ParityValue.Set "no" = Except.ok Parity.noParity ∧
    ParityValue.Set "odd" = Except.ok Parity.oddParity ∧
    ParityValue.Set "even" = Except.ok Parity.evenParity ∧
    ParityValue.Set "mark" = Except.ok Parity.markParity ∧
    ParityValue.Set "space" = Except.ok Parity.spaceParity ∧
    ParityValue.Set "marK" = Except.ok Parity.markParity ∧
    StopBitsValue.Set "1" = Except.ok StopBits.oneStopBit ∧
    StopBitsValue.Set "1.5" = Except.ok StopBits.onePointFiveStopBits ∧
    StopBitsValue.Set "2" = Except.ok StopBits.twoStopBits ∧
    ParityValue.Set "xyz" = Except.error "invalid parity value: xyz" ∧
    StopBitsValue.Set "3" = Except.error "invalid stop bits value: 3" := by
  refine ⟨?_, ?_, rfl, rfl, rfl, rfl, rfl, rfl, rfl, rfl, rfl, rfl, rfl⟩
  · unfold ParityValue.Set
    split_ifs with h1 h2 h3 h4 h5 <;> simp_all
  · unfold StopBitsValue.Set
    split_ifs with h1 h2 h3 <;> simp_all

/-- Claim C9: an accept failure is logged and the loop just continues
with the remaining accept outcomes; the error is dropped (never
propagated out of the loop), neither the serial port nor the listener is
ever closed by the loop, and a connection accepted right after a failed
accept is still served. -/
theorem C9_accept_error_logged_and_loop_continues :
    (∀ (e : GErr) (rest : List (Except GErr AConn)),
      acceptLoop (Except.error e :: rest) =
        Event.acceptErrorLogged :: acceptLoop rest) ∧
    (∀ input : List (Except GErr AConn),
      Event.serialClosed ∉ acceptLoop input ∧
      Event.listenerClosed ∉ acceptLoop input) ∧
    (∀ (e : GErr) (a : AConn) (rest : List (Except GErr AConn)),
      Event.accepted a.id ∈ acceptLoop (Except.error e :: Except.ok a :: rest)) := by
  refine ⟨fun e rest => by simp [acceptLoop], fun input => ?_, fun e a rest => ?_⟩
  · induction input with
    | nil => simp [acceptLoop]
    | cons x rest ih =>
      obtain ⟨ih1, ih2⟩ := ih
      cases x with
      | error e => simp [acceptLoop, ih1, ih2]
      | ok a =>
        have hs := handleConnection_not_serialClosed a.id a.env
        have hl := handleConnection_not_listenerClosed a.id a.env
        constructor <;>
          · simp only [acceptLoop, List.cons_append, List.append_assoc, List.mem_cons,
              List.mem_append]
            split_ifs <;> simp_all
  · simp [acceptLoop]

end SerialTCP
